import Mathlib

/-!
Shallow embedding of the tweet deduplication cache of `react_agent`
(`src/react_agent/tools.py` and `src/react_agent/utils.py`).

Python dicts are modelled as insertion-ordered association lists
(`List (String × α)`), matching CPython's guaranteed key insertion order:
`dget` is `d.get(k)`, `dinsert` is `d[k] = v` (an existing key keeps its
position, a fresh key is appended), `dupdate` is `d.update(e)`, and
`dictBy` is the dict comprehension over a list keyed by a field.
-/

namespace ReactAgent

def dget {α : Type} (d : List (String × α)) (k : String) : Option α :=
  match d.find? (fun p => p.1 == k) with
  | some p => some p.2
  | none => none

def dmem {α : Type} (d : List (String × α)) (k : String) : Bool :=
  (dget d k).isSome

def dinsert {α : Type} (d : List (String × α)) (k : String) (v : α) : List (String × α) :=
  if dmem d k then d.map (fun p => if p.1 == k then (k, v) else p) else d ++ [(k, v)]

def dupdate {α : Type} (d e : List (String × α)) : List (String × α) :=
  e.foldl (fun acc p => dinsert acc p.1 p.2) d

def dictBy {α : Type} (key : α → String) (xs : List α) : List (String × α) :=
  xs.foldl (fun acc x => dinsert acc (key x) x) []

/-- A tweet as returned by the upstream API and stored in the cache:
the fields requested in the query string of `twitter_search_tool`
(`id, created_at, author_id, text, geo`). `geo` holds the `place_id`
of the geo object when the tweet is geo-tagged, and `none` when the
raw item has no `geo` member. -/
structure Tweet where
  id : String
  author_id : String
  text : String
  created_at : String
  geo : Option String
deriving DecidableEq, Repr

/-- A place record from `includes.places` of the upstream response. -/
structure Place where
  id : String
  full_name : String
  country : String
deriving DecidableEq, Repr

/-- A user record from `includes.users`; `location` is the optional
profile location field. -/
structure User where
  id : String
  location : Option String
deriving DecidableEq, Repr

/-- A namespace of the cache document: tweet id to raw tweet record,
in insertion order. -/
abbrev TwitterNS := List (String × Tweet)

/-- The cache document persisted in `search_cache.json`: namespace name
to id-to-record mapping. -/
abbrev CacheDoc := List (String × TwitterNS)

/-- The document `load_cache` returns when the cache file is absent
(`utils.py` line 39). -/
def default_cache : CacheDoc := [("twitter", []), ("summarization", [])]

/-- Model of `cache.get("twitter", {})` (`tools.py` line 239). -/
def nsGet (cache : CacheDoc) : TwitterNS :=
  (dget cache "twitter").getD []

/-- Model of `existing_tweet_ids` (line 240): the ids of the records in
the "twitter" namespace, read before any mutation. -/
def existing_tweet_ids (cache : CacheDoc) : List String :=
  (nsGet cache).map (fun p => p.2.id)

/-- Model of `new_tweets` (line 241): the fresh response items whose id
was not previously cached, in upstream response order. -/
def new_tweets (cache : CacheDoc) (tweets : List Tweet) : List Tweet :=
  tweets.filter (fun t => !((existing_tweet_ids cache).contains t.id))

/-- Model of lines 244-248: if there are new tweets, the "twitter"
namespace is updated with them keyed by id and the document is saved;
otherwise the document is untouched. The returned document is the
persisted state after the invocation. -/
def merge_cache (cache : CacheDoc) (tweets : List Tweet) : CacheDoc :=
  if new_tweets cache tweets = [] then cache
  else dinsert cache "twitter" (dupdate (nsGet cache) (dictBy Tweet.id (new_tweets cache tweets)))

/-- Model of `all_tweets = list(existing_tweets.values()) + new_tweets`
(line 250). In Python, `existing_tweets` bound at line 239 is the same
dict object as `cache["twitter"]` whenever the key "twitter" is present
in the loaded document, and `cache.setdefault("twitter", {}).update(...)`
at line 245 mutates that object in place; so `existing_tweets.values()`,
read at line 250, sees the post-update contents. When the key is absent,
`cache.get("twitter", {})` returns a detached fresh dict that the update
never touches, so the values read back empty. -/
def all_tweets (cache : CacheDoc) (tweets : List Tweet) : List Tweet :=
  (if dmem cache "twitter" then (nsGet (merge_cache cache tweets)).map Prod.snd else [])
    ++ new_tweets cache tweets

/-- An apostrophe character (codepoint 39), used in the source's literal
strings. -/
def apos : String := (Char.ofNat 39).toString

/-- Model of the `user_location` lookup (`tools.py` line 255):
`users.get(tweet["author_id"], {}).get("location", "Unknown")`. -/
def user_location (users : List (String × User)) (t : Tweet) : String :=
  match dget users t.author_id with
  | some u => u.location.getD "Unknown"
  | none => "Unknown"

/-- Model of the `place_info` resolution (lines 254-263): a geo-tagged
tweet resolves through the `places` table of the current response —
`places[place_id]` raises a `KeyError` when the id is absent —
otherwise the profile location is used when it is not "Unknown", and
"Location: Unknown" is the final fallback. A raised Python exception is
an `Except.error`. -/
def place_info (places : List (String × Place)) (users : List (String × User))
    (t : Tweet) : Except String String :=
  match t.geo with
  | some place_id =>
    match dget places place_id with
    | some p => .ok ("Location: " ++ p.full_name ++ ", " ++ p.country)
    | none => .error ("KeyError: " ++ place_id)
  | none =>
    if user_location users t = "Unknown" then .ok "Location: Unknown"
    else .ok ("User" ++ apos ++ "s Location: " ++ user_location users t)

/-- Model of the per-tweet formatted block (line 266). -/
def format_tweet (places : List (String × Place)) (users : List (String × User))
    (t : Tweet) : Except String String :=
  match place_info places users t with
  | .ok info =>
    .ok ("Author ID: " ++ t.author_id ++ "\nTweet: " ++ t.text ++ "\n" ++ info
      ++ "\nDate: " ++ t.created_at)
  | .error e => .error e

/-- Model of the formatting loop (lines 252-267): the first raised
exception aborts the whole invocation. -/
def format_tweets (places : List (String × Place)) (users : List (String × User)) :
    List Tweet → Except String (List String)
  | [] => .ok []
  | t :: rest =>
    match format_tweet places users t with
    | .ok s =>
      match format_tweets places users rest with
      | .ok ss => .ok (s :: ss)
      | .error e => .error e
    | .error e => .error e

/-- An upstream response of the twitter endpoint: HTTP status, the
response body rendered as text (used in the error string), the `data`
array, and the `includes.places` / `includes.users` expansion tables.
An absent `data` key and an empty `data` array both read back as `[]`
through `response.json().get("data", [])`. -/
structure TwitterResponse where
  status : Nat
  body : String
  data : List Tweet
  places : List Place
  users : List User
deriving DecidableEq, Repr

/-- Observable outcome of one `twitter_search_tool` invocation:
the returned text, the persisted cache document after the call, and
whether the network, the cache load and the cache save were reached. -/
structure ToolOutput where
  result : String
  cache : CacheDoc
  networkCalled : Bool
  cacheLoaded : Bool
  cacheSaved : Bool
deriving DecidableEq, Repr

/-- Model of `twitter_search_tool` (`tools.py` lines 202-269) as a
function of the configured bearer token (`none` when the environment
variable is unset), the upstream response the network call would
return, and the cache document the (lazy) `load_cache()` would produce.
A raised Python exception is an `Except.error`; every `return` is an
`Except.ok` carrying the returned string and the observed effects. -/
def twitter_search_tool (bearer_token : Option String) (resp : TwitterResponse)
    (stored : CacheDoc) : Except String ToolOutput :=
  if bearer_token.getD "" = "" then
    .ok ⟨"Twitter API credentials are missing.", stored, false, false, false⟩
  else if resp.status ≠ 200 then
    .ok ⟨"Error: " ++ toString resp.status ++ ", " ++ resp.body, stored, true, false, false⟩
  else
    let tweets := resp.data
    let places := dictBy Place.id resp.places
    let users := dictBy User.id resp.users
    if tweets = [] then
      .ok ⟨"No tweets found.", stored, true, false, false⟩
    else
      match format_tweets places users (all_tweets stored tweets) with
      | .ok lines =>
        .ok ⟨String.intercalate "\n\n" lines, merge_cache stored tweets, true, true,
          !(new_tweets stored tweets).isEmpty⟩
      | .error e => .error e

/-- A raw entry of the `results` array of the search API response;
`url` and `content` are optional because the source reads them with
`result.get(..., default)`. -/
structure RawSearchResult where
  url : Option String
  content : Option String
deriving DecidableEq, Repr

/-- An upstream response of the search API: HTTP status, body text and
the optional `results` array (`none` models an absent "results" key). -/
structure SearchResponse where
  status : Nat
  body : String
  results : Option (List RawSearchResult)
deriving DecidableEq, Repr

/-- An extracted search item as returned by `search`. -/
structure SearchItem where
  url : String
  content : String
deriving DecidableEq, Repr

/-- Model of `search` (`tools.py` lines 82-149) as a function of the
upstream response: on status 200 with a `results` key it returns the
extracted url/content pairs; otherwise it raises (`Except.error`) —
`raise Exception("No 'results' key ...")` on a missing key and
`raise Exception(f"Failed to fetch results: ...")` on a non-success
status. -/
def search (resp : SearchResponse) : Except String (List SearchItem) :=
  if resp.status = 200 then
    match resp.results with
    | some rs =>
      .ok (rs.map (fun r => ⟨r.url.getD "No URL found", r.content.getD "No content found"⟩))
    | none => .error ("No " ++ apos ++ "results" ++ apos ++ " key found in the response.")
  else
    .error ("Failed to fetch results: " ++ toString resp.status ++ ", " ++ resp.body)

/-- A JSON value of the fragment the cache file uses: strings and
objects (insertion-ordered key/value lists). `json.dump` and
`json.load` translate between Python values and this tree. -/
inductive Json where
  | str : String → Json
  | obj : List (String × Json) → Json

/-- JSON form of a raw tweet record, with the `geo` member present only
when the tweet is geo-tagged, exactly as the upstream items are stored
verbatim in the cache. -/
def tweetToJson (t : Tweet) : Json :=
  .obj ([("id", .str t.id), ("author_id", .str t.author_id), ("text", .str t.text),
    ("created_at", .str t.created_at)] ++
    (match t.geo with
     | some pid => [("geo", Json.obj [("place_id", Json.str pid)])]
     | none => []))

/-- Reading a raw tweet record back from its JSON form. -/
def tweetOfJson : Json → Option Tweet
  | .obj l =>
    match dget l "id", dget l "author_id", dget l "text", dget l "created_at" with
    | some (.str i), some (.str a), some (.str x), some (.str c) =>
      (match dget l "geo" with
       | some (.obj g) =>
         (match dget g "place_id" with
          | some (.str pid) => some ⟨i, a, x, c, some pid⟩
          | _ => none)
       | none => some ⟨i, a, x, c, none⟩
       | some _ => none)
    | _, _, _, _ => none
  | _ => none

/-- Decoding every value of a JSON object entry list, failing if any
single entry fails. -/
def decodeEntries {α : Type} (f : Json → Option α) :
    List (String × Json) → Option (List (String × α))
  | [] => some []
  | (k, j) :: rest =>
    match f j, decodeEntries f rest with
    | some v, some vs => some ((k, v) :: vs)
    | _, _ => none

/-- JSON form of one namespace of the cache document. -/
def nsToJson (ns : TwitterNS) : Json :=
  .obj (ns.map (fun p => (p.1, tweetToJson p.2)))

/-- Reading one namespace back from its JSON form. -/
def nsOfJson : Json → Option TwitterNS
  | .obj l => decodeEntries tweetOfJson l
  | _ => none

/-- JSON form of the whole cache document, the value `json.dump`
serializes into `search_cache.json`. -/
def docToJson (d : CacheDoc) : Json :=
  .obj (d.map (fun p => (p.1, nsToJson p.2)))

/-- Reading the whole cache document back from its JSON form. -/
def docOfJson : Json → Option CacheDoc
  | .obj l => decodeEntries nsOfJson l
  | _ => none

/-- Model of `save_cache` (`utils.py` lines 42-44) at the level of the
parsed file: the file afterwards holds exactly the serialized document,
whatever it held before. -/
def save_cache (data : CacheDoc) (_file : Option Json) : Option Json :=
  some (docToJson data)

/-- Model of `load_cache` (`utils.py` lines 34-39): an absent file
yields the default two-namespace document; an unreadable file raises
`json.JSONDecodeError`. -/
def load_cache (file : Option Json) : Except String CacheDoc :=
  match file with
  | none => .ok default_cache
  | some j =>
    match docOfJson j with
    | some d => .ok d
    | none => .error "JSONDecodeError"

/-- A JSON string literal in the rendered cache file. The records the
tool caches carry no characters needing escapes; escaping is delegated
to the `json` library and elided here. -/
def jstr (s : String) : String := "\"" ++ s ++ "\""

/-- Rendered JSON text of a raw tweet record (the whitespace layout of
`indent=4` is elided; it does not affect the crash analysis). -/
def dumpTweet (t : Tweet) : String :=
  "\x7b" ++ String.intercalate ", "
    ([jstr "id" ++ ": " ++ jstr t.id,
      jstr "author_id" ++ ": " ++ jstr t.author_id,
      jstr "text" ++ ": " ++ jstr t.text,
      jstr "created_at" ++ ": " ++ jstr t.created_at] ++
     (match t.geo with
      | some pid => [jstr "geo" ++ ": \x7b" ++ jstr "place_id" ++ ": " ++ jstr pid ++ "\x7d"]
      | none => [])) ++ "\x7d"

/-- Rendered JSON text of one namespace. -/
def dumpNS (ns : TwitterNS) : String :=
  "\x7b" ++ String.intercalate ", "
    (ns.map (fun p => jstr p.1 ++ ": " ++ dumpTweet p.2)) ++ "\x7d"

/-- Rendered JSON text of the whole cache document, as `json.dump`
writes it into `search_cache.json`. -/
def dumpDoc (d : CacheDoc) : String :=
  "\x7b" ++ String.intercalate ", "
    (d.map (fun p => jstr p.1 ++ ": " ++ dumpNS p.2)) ++ "\x7d"

/-- The file contents observable if the process dies at any point of a
textual write of `s` into a file opened with mode "w": opening
truncates the file at once, so a crash leaves some prefix of `s`,
starting from the empty file. -/
def write_states (s : String) : List String :=
  (List.range (s.length + 1)).map (fun n => s.take n)

/-- The file contents observable when the process is killed during
`save_cache(data)`: the source opens `search_cache.json` itself with
mode "w" (truncate in place, no temporary path and no rename), then
`json.dump` streams the rendered text into it. -/
def save_cache_states (data : CacheDoc) : List String :=
  write_states (dumpDoc data)

/-- A file content a subsequent `load_cache` can parse as a cache
document, i.e. one that is the rendering of some document. -/
def parses_as_doc (s : String) : Prop := ∃ d : CacheDoc, dumpDoc d = s

/-- Fixture: a fresh tweet with no geo tag. -/
def t1 : Tweet := ⟨"1", "100", "heavy rain in the city", "2025-01-01", none⟩

/-- Fixture: a previously cached tweet carrying a geo place reference
`p9`. -/
def t9 : Tweet := ⟨"9", "900", "cyclone warning", "2024-12-31", some "p9"⟩

/-- Fixture: a tweet already cached before the current invocation. -/
def t0 : Tweet := ⟨"0", "50", "old report", "2024-12-01", none⟩

/-- Fixture: a cache document holding the cached tweet `t0`. -/
def cache_t0 : CacheDoc := [("twitter", [("0", t0)]), ("summarization", [])]

/-- Fixture: a cache document holding the geo-tagged tweet `t9` whose
place id `p9` is absent from the current response. -/
def cache_stale : CacheDoc := [("twitter", [("9", t9)]), ("summarization", [])]

/-- Fixture: a successful upstream response delivering only the fresh
tweet `t1`, with empty expansion tables. -/
def resp_fresh : TwitterResponse := ⟨200, "", [t1], [], []⟩

/-- Fixture: a place record for the geo reference `p1`. -/
def place_p1 : Place := ⟨"p1", "Chennai", "India"⟩

/-- Fixture: a user whose profile carries the location "Mumbai". -/
def user_u1 : User := ⟨"100", some "Mumbai"⟩

/-- Fixture: a tweet carrying both a geo place reference (`p1`) and an
author (`100`) whose profile has a location. -/
def t_both : Tweet := ⟨"2", "100", "flooding downtown", "2025-01-02", some "p1"⟩

theorem tweet_roundtrip (t : Tweet) : tweetOfJson (tweetToJson t) = some t := by
  cases t with
  | mk i a x c g => cases g <;> rfl

theorem decodeEntries_map {α : Type} (f : Json → Option α) (g : α → Json)
    (h : ∀ x, f (g x) = some x) (l : List (String × α)) :
    decodeEntries f (l.map (fun p => (p.1, g p.2))) = some l := by
  induction l with
  | nil => rfl
  | cons p rest ih =>
    cases p with
    | mk k v => simp [decodeEntries, h v, ih]

theorem ns_roundtrip (ns : TwitterNS) : nsOfJson (nsToJson ns) = some ns := by
  simp only [nsToJson, nsOfJson]
  exact decodeEntries_map tweetOfJson tweetToJson tweet_roundtrip ns

theorem doc_roundtrip (d : CacheDoc) : docOfJson (docToJson d) = some d := by
  simp only [docToJson, docOfJson]
  exact decodeEntries_map nsOfJson nsToJson ns_roundtrip d

theorem dumpDoc_ne_empty (d : CacheDoc) : dumpDoc d ≠ "" := by
  intro h
  have h2 := congrArg String.length h
  have hb : ("\x7b" : String).length = 1 := rfl
  have he : ("" : String).length = 0 := rfl
  simp only [dumpDoc, String.length_append, hb, he] at h2
  omega

/-- C1: the claim says every merge invocation returns a combined
sequence with each tweet id exactly once, a newly fetched tweet
appearing once, not both among the cached and among the new records.
The code violates it: starting from the default empty document, a
single invocation delivering the fresh tweet `t1` returns a sequence
whose id list is `["1", "1"]` — `existing_tweets` aliases the mutated
`cache["twitter"]` dict, so `t1` is read back among the cached values
and then appended again as a new record. -/
theorem merge_returns_duplicate_ids :
    (all_tweets default_cache [t1]).map Tweet.id = ["1", "1"] ∧
    ¬ ((all_tweets default_cache [t1]).map Tweet.id).Nodup := by decide

/-- C2: the claim says re-feeding the last batch changes nothing
persisted and returns the same combined result as the call before the
repeat. The persisted half holds on this input, but the returned half
fails: feeding `[t1]` into the default document returns `t1` twice
(the aliasing duplication), while the repeat returns it once, so the
two results differ in content. -/
theorem merge_repeat_changes_returned_content :
    merge_cache (merge_cache default_cache [t1]) [t1] = merge_cache default_cache [t1] ∧
    all_tweets (merge_cache default_cache [t1]) [t1] ≠ all_tweets default_cache [t1] := by
  decide

/-- C3: the claim says `save_cache` writes atomically via a temporary
path and a rename, so an interrupted write leaves the prior or the new
document. The code opens the cache file itself with mode "w": the
empty string is an observable mid-write file content (right after the
truncation), and it is not the rendering of any cache document, so a
subsequent `load_cache` raises instead of returning a valid
document. -/
theorem save_cache_midwrite_unparseable :
    "" ∈ save_cache_states default_cache ∧ ¬ parses_as_doc "" := by
  constructor
  · simp only [save_cache_states, write_states, List.mem_map]
    exact ⟨0, by simp, rfl⟩
  · rintro ⟨d, hd⟩
    exact dumpDoc_ne_empty d hd

/-- C4 counterexample: the claim says tool-layer functions never raise
an uncaught fault on a non-success upstream status; `search` raises an
`Exception` on a 500 response rather than returning text. -/
theorem search_raises_on_upstream_failure :
    search ⟨500, "server error", some []⟩ =
      .error "Failed to fetch results: 500, server error" := rfl

/-- C4 amended: `twitter_search_tool` resolves a non-success upstream
status to a descriptive text result, but `search` raises an exception
on a non-success status and on a success response missing the
"results" key. -/
theorem tool_layer_error_propagation (token : String) (resp : TwitterResponse)
    (stored : CacheDoc) (sresp bad : SearchResponse)
    (htok : token ≠ "") (hstatus : resp.status ≠ 200)
    (hs : sresp.status ≠ 200) (hb : bad.status = 200) (hbr : bad.results = none) :
    twitter_search_tool (some token) resp stored =
      .ok ⟨"Error: " ++ toString resp.status ++ ", " ++ resp.body, stored, true, false, false⟩ ∧
    search sresp =
      .error ("Failed to fetch results: " ++ toString sresp.status ++ ", " ++ sresp.body) ∧
    search bad = .error ("No " ++ apos ++ "results" ++ apos ++ " key found in the response.") := by
  refine ⟨?_, ?_, ?_⟩
  · simp [twitter_search_tool, htok, hstatus]
  · simp [search, hs]
  · simp [search, hb, hbr]

/-- C4 witness: the amended statement at a 500 twitter response, a 404
search response and a 200 search response missing the "results" key. -/
theorem tool_layer_error_propagation_witness :
    twitter_search_tool (some "tok") ⟨500, "oops", [], [], []⟩ default_cache =
      .ok ⟨"Error: 500, oops", default_cache, true, false, false⟩ ∧
    search ⟨404, "nf", none⟩ = .error "Failed to fetch results: 404, nf" ∧
    search ⟨200, "", none⟩ =
      .error ("No " ++ apos ++ "results" ++ apos ++ " key found in the response.") := by
  have h := tool_layer_error_propagation "tok" ⟨500, "oops", [], [], []⟩ default_cache
    ⟨404, "nf", none⟩ ⟨200, "", none⟩ (by decide) (by decide) (by decide) rfl rfl
  exact ⟨h.1.trans rfl, h.2.1.trans rfl, h.2.2⟩

/-- C5: with no configured bearer token, `twitter_search_tool` returns
exactly the sentinel "Twitter API credentials are missing.", with no
network call, no cache read and no cache write, for every upstream
response and every stored cache document. -/
theorem missing_credentials_sentinel (resp : TwitterResponse) (stored : CacheDoc) :
    twitter_search_tool none resp stored =
      .ok ⟨"Twitter API credentials are missing.", stored, false, false, false⟩ := rfl

/-- C5 witness: the sentinel at a concrete response and the default
cache document. -/
theorem missing_credentials_sentinel_witness :
    twitter_search_tool none ⟨200, "", [], [], []⟩ default_cache =
      .ok ⟨"Twitter API credentials are missing.", default_cache, false, false, false⟩ :=
  missing_credentials_sentinel ⟨200, "", [], [], []⟩ default_cache

/-- C6: a successful upstream response with an empty `data` array
yields exactly "No tweets found.", the cache is neither loaded nor
saved (so the document is not mutated), and this sentinel differs from
the missing-credentials sentinel. -/
theorem no_tweets_sentinel (token : String) (resp : TwitterResponse) (stored : CacheDoc)
    (htok : token ≠ "") (hstatus : resp.status = 200) (hdata : resp.data = []) :
    twitter_search_tool (some token) resp stored =
      .ok ⟨"No tweets found.", stored, true, false, false⟩ ∧
    "No tweets found." ≠ "Twitter API credentials are missing." := by
  constructor
  · simp [twitter_search_tool, htok, hstatus, hdata]
  · decide

/-- C6 witness: the empty-data sentinel at a concrete token, response
and cache document. -/
theorem no_tweets_sentinel_witness :
    twitter_search_tool (some "tok") ⟨200, "", [], [], []⟩ default_cache =
      .ok ⟨"No tweets found.", default_cache, true, false, false⟩ ∧
    "No tweets found." ≠ "Twitter API credentials are missing." :=
  no_tweets_sentinel "tok" ⟨200, "", [], [], []⟩ default_cache (by decide) rfl rfl

/-- C7: the claim says the combined sequence is exactly the previously
cached records in insertion order followed by the new records in
response order. The code violates it: with `t0` cached, delivering the
fresh `t1` returns `[t0, t1, t1]` — the new record shows up inside the
"cached" prefix (through the mutated alias) and again at the end — and
not the claimed `[t0] ++ [t1]`. -/
theorem combined_not_cached_then_new :
    all_tweets cache_t0 [t1] = [t0, t1, t1] ∧
    all_tweets cache_t0 [t1] ≠ (nsGet cache_t0).map Prod.snd ++ new_tweets cache_t0 [t1] := by
  decide

/-- C8: location resolution follows the order of the source — a tweet
with a geo place reference resolves to the full name and country of
that place in the current response table (regardless of the author
profile), otherwise a profile location other than "Unknown" gives the
"User's Location" line, otherwise the line is "Location: Unknown". -/
theorem location_resolution_precedence (places : List (String × Place))
    (users : List (String × User)) (t : Tweet) (pid : String) (p : Place) :
    (t.geo = some pid → dget places pid = some p →
      place_info places users t = .ok ("Location: " ++ p.full_name ++ ", " ++ p.country)) ∧
    (t.geo = none → user_location users t ≠ "Unknown" →
      place_info places users t = .ok ("User" ++ apos ++ "s Location: " ++ user_location users t)) ∧
    (t.geo = none → user_location users t = "Unknown" →
      place_info places users t = .ok "Location: Unknown") := by
  refine ⟨?_, ?_, ?_⟩ <;> intro h1 h2 <;> simp [place_info, h1, h2]

/-- C8 witness: a tweet carrying both a geo place reference and an
author profile location resolves to the geo place, not the profile. -/
theorem location_resolution_precedence_witness :
    place_info [("p1", place_p1)] [("100", user_u1)] t_both =
      .ok "Location: Chennai, India" :=
  Eq.trans
    ((location_resolution_precedence [("p1", place_p1)] [("100", user_u1)]
      t_both "p1" place_p1).1 rfl rfl) rfl

/-- C9: for every cache document, `save_cache` followed by `load_cache`
returns a document equal to the one saved, whatever the file held
before. -/
theorem cache_save_load_roundtrip (data : CacheDoc) (file : Option Json) :
    load_cache (save_cache data file) = .ok data := by
  simp [save_cache, load_cache, doc_roundtrip]

/-- C9 witness: the round trip at a concrete document over an absent
file. -/
theorem cache_save_load_roundtrip_witness :
    load_cache (save_cache cache_t0 none) = .ok cache_t0 :=
  cache_save_load_roundtrip cache_t0 none

/-- C10: geo place ids are resolved only against the place table of the
current upstream response — with the geo-tagged tweet `t9` cached and a
current response whose places table lacks its place id `p9`, the
invocation raises a `KeyError` instead of returning text. -/
theorem stale_place_lookup_raises :
    twitter_search_tool (some "tok") resp_fresh cache_stale = .error "KeyError: p9" := rfl

end ReactAgent
